import Mathlib

/-
  Verification of the football-commentary NLP pipeline core
  (event detection/deduplication and multi-signal intensity scoring).

  The Python source is shallowly embedded over exact rationals:
  * text is `String` / `List Char` (ASCII model of the Python string and
    `re` operations actually exercised by the code);
  * Python floats become `ℚ`, and Python's `round(x, n)` is modelled by
    `pyRound`, rounding `x * 10^n` to the nearest integer (tie behaviour
    is irrelevant to everything proved here);
  * the spaCy model is an external collaborator, modelled as an optional
    tokenizer `Option Model`; `none` models the `nlp = None` fallback in
    the source;
  * Python dict access that can raise `KeyError` is modelled with
    `Option`, so `analyze_sentiment` returns `Option (List IntensityRecord)`.
-/

namespace FootballNLP

/-! ### Basic text helpers (model of the Python string and regex operations) -/

/-- Lowercase a character sequence (ASCII model of `str.lower()`). -/
def lcase (s : List Char) : List Char := s.map Char.toLower

/-- Characters of a string. -/
def strData (s : String) : List Char := s.data

/-- Regex word character `\w` (ASCII model). -/
def isWordChar (c : Char) : Bool := c.isAlphanum || c == '_'

/-- Word-character test on an optional character; the edge of the string
counts as a non-word position. -/
def optWord : Option Char → Bool
  | none => false
  | some c => isWordChar c

/-- Regex word boundary `\b` between a left and a right character
(either may be the string edge). -/
def isBoundaryAt (l r : Option Char) : Bool := optWord l != optWord r

/-- Last character of a nonempty character list, with a default. -/
def lastD (w : List Char) (d : Char) : Char := w.getLast?.getD d

/-- Does the literal alternative `w` match at the current position
(previous character `prev`, remaining text `s`) with `\b` on both sides? -/
def matchAltAt (w : List Char) (prev : Option Char) (s : List Char) : Bool :=
  match w with
  | [] => false
  | c0 :: rest =>
    (s.take (c0 :: rest).length == c0 :: rest) &&
    isBoundaryAt prev (some c0) &&
    isBoundaryAt (some (lastD (c0 :: rest) c0)) ((s.drop (c0 :: rest).length).head?)

/-- Scan of `re.search` for a pattern `\b(w1|w2|...)\b` whose alternatives
are the literal strings `alts`: try every position of the text. -/
def searchWBFrom (alts : List (List Char)) : Option Char → List Char → Bool
  | prev, [] => alts.any fun w => matchAltAt w prev []
  | prev, c :: rest =>
    (alts.any fun w => matchAltAt w prev (c :: rest)) || searchWBFrom alts (some c) rest

/-- `re.search(r"\b(w1|w2|...)\b", s)` for literal alternatives. -/
def searchWB (alts : List (List Char)) (s : List Char) : Bool := searchWBFrom alts none s

/-- `re.search(r"[A-Z]{3,}", s, re.IGNORECASE)`: under `re.IGNORECASE`
the class `[A-Z]` matches any letter, so this is a run of three letters. -/
def hasRun3Alpha : List Char → Bool
  | a :: b :: c :: rest => (a.isAlpha && b.isAlpha && c.isAlpha) || hasRun3Alpha (b :: c :: rest)
  | _ => false

/-- Does `s` start with `p`? -/
def startsWith (p s : List Char) : Bool := s.take p.length == p

/-- Does `p` occur as a contiguous substring of `s`?
(Model of an unanchored `re.search` on a literal.) -/
def infixB (p : List Char) : List Char → Bool
  | [] => p == []
  | c :: rest => startsWith p (c :: rest) || infixB p rest

/-- Case-insensitive substring search for any of the literal alternatives
(model of `re.search` with `re.IGNORECASE` on a plain alternation). -/
def ciInfixAny (ps : List String) (s : List Char) : Bool :=
  ps.any fun p => infixB (lcase p.data) (lcase s)

/-! ### Sentiment analyzer: data model (src/sentiment_analyzer.py) -/

/-- One spaCy token as consumed by the source: lemma, part-of-speech tag,
punctuation/space flags.  Produced by the external NLP collaborator. -/
structure Token where
  lemma_ : String
  pos : String
  is_punct : Bool
  is_space : Bool
deriving DecidableEq, Repr

/-- The external spaCy model: a tokenizer. -/
def Model := String → List Token

/-- The dict returned by `analyze_with_spacy`.  The `nlp = None` fallback
dict in the source has no `adjective_count` / `word_count` keys, so those
two fields are `Option`. -/
structure SpacyDict where
  excitement_score : ℚ
  tension_score : ℚ
  has_intensifier : Bool
  has_negation : Bool
  adjective_count : Option Nat
  word_count : Option Nat

def EXCITEMENT_LEMMAS : List String :=
  ["goal", "score", "brilliant", "amazing", "incredible", "fantastic",
   "unbelievable", "wow", "beautiful", "stunning", "magnificent",
   "sensational", "spectacular", "wonderful", "superb", "perfect",
   "genius", "magic", "masterclass", "clinical", "unstoppable"]

def TENSION_LEMMAS : List String :=
  ["foul", "card", "injury", "hurt", "miss", "save", "block",
   "dangerous", "close", "almost", "nearly", "offside", "controversial"]

def INTENSIFIERS : List String :=
  ["very", "so", "really", "absolutely", "completely", "totally",
   "incredibly", "extremely", "truly", "just"]

def NEGATIONS : List String :=
  ["not", "no", "never", "none", "nothing", "neither", "nobody"]

/-- Lowercase a string (ASCII model of `str.lower()`). -/
def lowerS (s : String) : String := String.mk (lcase s.data)

/-- `analyze_with_spacy` (src/sentiment_analyzer.py:55-104).  With no
loaded model it returns the four-key fallback dict; otherwise it counts
vocabulary hits over the model's tokens. -/
def analyze_with_spacy (nlp : Option Model) (text : String) : SpacyDict :=
  match nlp with
  | none =>
    { excitement_score := 0, tension_score := 0, has_intensifier := false,
      has_negation := false, adjective_count := none, word_count := none }
  | some model =>
    let doc := model text
    let excitement_count := doc.countP fun t => EXCITEMENT_LEMMAS.contains (lowerS t.lemma_)
    let tension_count := doc.countP fun t => TENSION_LEMMAS.contains (lowerS t.lemma_)
    let intensifier_count := doc.countP fun t => INTENSIFIERS.contains (lowerS t.lemma_)
    let has_negation := doc.any fun t => NEGATIONS.contains (lowerS t.lemma_)
    let adjectives := doc.filter fun t => t.pos == ("ADJ") || t.pos == ("ADV")
    let strong_adj_count := adjectives.countP fun t => EXCITEMENT_LEMMAS.contains (lowerS t.lemma_)
    let word_count := (doc.filter fun t => !t.is_punct && !t.is_space).length
    let excitement_base : ℚ :=
      ((excitement_count : ℚ) + (strong_adj_count : ℚ) * (1/2)) / ((max word_count 1 : ℕ) : ℚ)
    let tension_base : ℚ := (tension_count : ℚ) / ((max word_count 1 : ℕ) : ℚ)
    { excitement_score := min (excitement_base * 3) 1,
      tension_score := min (tension_base * 3) 1,
      has_intensifier := decide (0 < intensifier_count),
      has_negation := has_negation,
      adjective_count := some adjectives.length,
      word_count := some word_count }

/-! ### Intensity patterns and `calculate_intensity` -/

/-- Alternatives of `\b(GOAL|YES|WOW|OH)\b`; under `re.IGNORECASE` they are
matched case-insensitively, so we match their lowercase forms against the
lowercased text (word-character status is unchanged by lowercasing). -/
def shoutAlts : List (List Char) :=
  [strData ("goal"), strData ("yes"), strData ("wow"), strData ("oh")]

/-- Alternatives of `what a (goal|strike|save|finish|pass|hit)`. -/
def whatAAlts : List String :=
  ["what a goal", "what a strike", "what a save", "what a finish",
   "what a pass", "what a hit"]

/-- Alternatives of `(brilliant|amazing|incredible|unbelievable|sensational)`. -/
def strongAdjAlts : List String :=
  ["brilliant", "amazing", "incredible", "unbelievable", "sensational"]

/-- Alternatives of `(good|nice|well done|great)`. -/
def mediumGoodAlts : List String := ["good", "nice", "well done", "great"]

/-- Alternatives of `(chance|shot|opportunity|attack)`. -/
def mediumChanceAlts : List String := ["chance", "shot", "opportunity", "attack"]

/-- Match results of the five `INTENSITY_PATTERNS["high"]` regexes against
the raw text, each searched with `re.IGNORECASE`
(src/sentiment_analyzer.py:35-42 and 121-124). -/
def highPatternHits (text : String) : List Bool :=
  [ infixB (strData ("!!")) text.data,
    hasRun3Alpha text.data,
    searchWB shoutAlts (lcase text.data),
    ciInfixAny whatAAlts text.data,
    ciInfixAny strongAdjAlts text.data ]

/-- Match results of the three `INTENSITY_PATTERNS["medium"]` regexes. -/
def mediumPatternHits (text : String) : List Bool :=
  [ text.data.contains '!',
    ciInfixAny mediumGoodAlts text.data,
    ciInfixAny mediumChanceAlts text.data ]

/-- Number of `true` entries. -/
def countTrue (l : List Bool) : Nat := l.countP id

/-- `calculate_intensity` (src/sentiment_analyzer.py:107-148). -/
def calculate_intensity (nlp : Option Model) (text : String) : ℚ :=
  let sa := analyze_with_spacy nlp text
  let score : ℚ := sa.excitement_score * (4/10) + sa.tension_score * (2/10)
  let score := if sa.has_intensifier then score + 1/10 else score
  let score := score + (countTrue (highPatternHits text) : ℚ) * (2/10)
  let score := score + (countTrue (mediumPatternHits text) : ℚ) * (8/100)
  let exclamation_count := text.data.count '!'
  let score := score + min ((exclamation_count : ℚ) * (8/100)) (25/100)
  let question_count := text.data.count '?'
  let score := score + min ((question_count : ℚ) * (5/100)) (1/10)
  let caps_chars := text.data.countP fun c => c.isUpper
  let alpha_chars := text.data.countP fun c => c.isAlpha
  let score :=
    if 0 < alpha_chars ∧ (3/10 : ℚ) < (caps_chars : ℚ) / (alpha_chars : ℚ)
    then score + 15/100 else score
  min score 1

/-- Python's `round(x, n)` on exact rationals: round `x·10^n` to the
nearest integer and scale back.  (Python rounds ties to even on binary
floats; no tie is exercised anywhere in this development.) -/
def pyRound (n : Nat) (x : ℚ) : ℚ := ((round (x * (10 ^ n : ℕ)) : ℤ) : ℚ) / ((10 ^ n : ℕ) : ℚ)

/-- `classify_moment` (src/sentiment_analyzer.py:151-158). -/
def classify_moment (intensity : ℚ) : String :=
  if 6/10 ≤ intensity then ("exciting")
  else if 3/10 ≤ intensity then ("moderate")
  else ("calm")

/-- `get_sentiment_label` (src/sentiment_analyzer.py:161-172). -/
def get_sentiment_label (intensity tension_score : ℚ) : String :=
  if 7/10 ≤ intensity then ("very_exciting")
  else if 5/10 ≤ intensity then
    (if 3/10 < tension_score then ("tense") else ("exciting"))
  else if 3/10 ≤ intensity then ("moderate")
  else ("calm")

/-- `calculate_intensity_with_volume` (src/sentiment_analyzer.py:175-187). -/
def calculate_intensity_with_volume (nlp : Option Model) (text : String) (volume_score : ℚ) : ℚ :=
  let text_intensity := calculate_intensity nlp text
  let combined_intensity := text_intensity * (6/10) + volume_score * (4/10)
  let combined_intensity :=
    if 1/2 < text_intensity ∧ 1/2 < volume_score
    then min (combined_intensity + 1/10) 1
    else combined_intensity
  pyRound 2 combined_intensity

/-! ### `analyze_sentiment` and the per-segment records -/

/-- A transcript segment `{start, text}` as consumed by the engine. -/
structure Segment where
  start : ℚ
  text : String
deriving DecidableEq, Repr

/-- A segment enriched with a `volume_score` by the audio collaborator. -/
structure VolSeg where
  start : ℚ
  volume_score : ℚ
deriving DecidableEq, Repr

/-- The `linguistic_features` sub-dict of a result record
(src/sentiment_analyzer.py:221-226). -/
structure LinguisticFeatures where
  excitement_score : ℚ
  tension_score : ℚ
  has_intensifier : Bool
  word_count : Nat
deriving DecidableEq, Repr

/-- One result record of `analyze_sentiment`
(src/sentiment_analyzer.py:215-233).  `audio_features` carries the
`volume_score` and is present only on the audio-matched path. -/
structure IntensityRecord where
  time : ℚ
  text : String
  intensity : ℚ
  mood : String
  sentiment : String
  linguistic_features : LinguisticFeatures
  audio_features : Option ℚ
deriving DecidableEq, Repr

/-- The volume lookup of `analyze_sentiment` (src/sentiment_analyzer.py:195-199):
a dict keyed by `round(seg["start"], 1)` (later entries overwrite earlier
ones), read with default `0`. -/
def volLookup (svw : List VolSeg) (key : ℚ) : ℚ :=
  match svw.reverse.find? (fun s => decide (pyRound 1 s.start = key)) with
  | some s => s.volume_score
  | none => 0

/-- The volume score looked up for a segment
(src/sentiment_analyzer.py:207). -/
def segVolumeScore (svw : List VolSeg) (seg : Segment) : ℚ :=
  volLookup svw (pyRound 1 seg.start)

/-- The intensity stored for a segment (src/sentiment_analyzer.py:209-213):
fused with volume when the looked-up volume score is positive, else the
text-only intensity. -/
def segIntensityVal (nlp : Option Model) (svw : List VolSeg) (seg : Segment) : ℚ :=
  let volume_score := segVolumeScore svw seg
  if 0 < volume_score then calculate_intensity_with_volume nlp seg.text volume_score
  else calculate_intensity nlp seg.text

/-- Construction of one result record (src/sentiment_analyzer.py:201-235).
Returns `none` when the Python code raises: building `linguistic_features`
reads `spacy_analysis["word_count"]`, a key the `nlp = None` fallback dict
of `analyze_with_spacy` does not contain (`KeyError`). -/
def mkResult (nlp : Option Model) (svw : List VolSeg) (seg : Segment) :
    Option IntensityRecord :=
  let sa := analyze_with_spacy nlp seg.text
  let volume_score := segVolumeScore svw seg
  let intensity := segIntensityVal nlp svw seg
  match sa.word_count with
  | none => none
  | some wc =>
    some { time := seg.start,
           text := seg.text.trim,
           intensity := intensity,
           mood := classify_moment intensity,
           sentiment := get_sentiment_label intensity sa.tension_score,
           linguistic_features :=
             { excitement_score := pyRound 2 sa.excitement_score,
               tension_score := pyRound 2 sa.tension_score,
               has_intensifier := sa.has_intensifier,
               word_count := wc },
           audio_features := if 0 < volume_score then some volume_score else none }

/-- `analyze_sentiment` (src/sentiment_analyzer.py:190-237).  A `None` /
empty `segments_with_volume` argument both produce an empty lookup, so it
is modelled as a plain list.  `none` models an uncaught `KeyError`. -/
def analyze_sentiment (nlp : Option Model) (segments : List Segment)
    (segments_with_volume : List VolSeg) : Option (List IntensityRecord) :=
  segments.mapM (mkResult nlp segments_with_volume)

/-! ### Aggregation (`get_intensity_summary`) -/

/-- The `mood_distribution` counts. -/
structure MoodCounts where
  exciting : Nat
  moderate : Nat
  calm : Nat
deriving DecidableEq, Repr

/-- The `sentiment_distribution` counts. -/
structure SentimentCounts where
  very_exciting : Nat
  exciting : Nat
  tense : Nat
  moderate : Nat
  calm : Nat
deriving DecidableEq, Repr

/-- The summary dict of `get_intensity_summary`
(src/sentiment_analyzer.py:266-274). -/
structure IntensitySummary where
  average_intensity : ℚ
  peak_intensity : ℚ
  peak_moment_time : ℚ
  mood_distribution : MoodCounts
  sentiment_distribution : SentimentCounts
  total_segments : Nat
  exciting_percentage : ℚ
deriving DecidableEq, Repr

/-- Python's `max(analyzed, key=lambda x: x["intensity"])` guarded by
`if analyzed`: the leftmost record of maximal intensity, `none` on `[]`
(src/sentiment_analyzer.py:264). -/
def peakRecord : List IntensityRecord → Option IntensityRecord
  | [] => none
  | m :: rest =>
    match peakRecord rest with
    | none => some m
    | some p => if m.intensity < p.intensity then some p else some m

/-- `get_intensity_summary` (src/sentiment_analyzer.py:251-274). -/
def get_intensity_summary (analyzed : List IntensityRecord) : IntensitySummary :=
  let moods : MoodCounts :=
    { exciting := analyzed.countP fun m => m.mood == ("exciting"),
      moderate := analyzed.countP fun m => m.mood == ("moderate"),
      calm := analyzed.countP fun m => m.mood == ("calm") }
  let sentiments : SentimentCounts :=
    { very_exciting := analyzed.countP fun m => m.sentiment == ("very_exciting"),
      exciting := analyzed.countP fun m => m.sentiment == ("exciting"),
      tense := analyzed.countP fun m => m.sentiment == ("tense"),
      moderate := analyzed.countP fun m => m.sentiment == ("moderate"),
      calm := analyzed.countP fun m => m.sentiment == ("calm") }
  let total := analyzed.length
  let avg_intensity : ℚ :=
    if 0 < total then (analyzed.map (fun m => m.intensity)).sum / (total : ℚ) else 0
  let peak := peakRecord analyzed
  { average_intensity := pyRound 2 avg_intensity,
    peak_intensity := match peak with | some p => pyRound 2 p.intensity | none => 0,
    peak_moment_time := match peak with | some p => p.time | none => 0,
    mood_distribution := moods,
    sentiment_distribution := sentiments,
    total_segments := total,
    exciting_percentage :=
      if 0 < total then pyRound 1 ((moods.exciting : ℚ) / (total : ℚ) * 100) else 0 }

/-! ### Event detection (src/information_extraction.py) -/

/-- An event `{type, text, time}`. -/
structure Event where
  type : String
  text : String
  time : ℚ
deriving DecidableEq, Repr

/-- Turn literal alternative strings into character lists. -/
def pat (l : List String) : List (List Char) := l.map strData

/-- An apostrophe, as a string. -/
def apos : String := String.mk [Char.ofNat 39]

/-- Alternatives of the `goal` regexes (src/information_extraction.py:31-41),
with each `x?` expanded into its two literal alternatives. -/
def goalPatterns : List (List (List Char)) :=
  [ pat ["he scores", "scores!", "scored!", ("it") ++ apos ++ ("s a goal"), "its a goal",
         "what a goal", "brilliant goal"],
    pat ["puts it in", "put it in", "into the net", "back of the net",
         "finds the net", "find the net", "roof of the net"],
    pat ["first goal", "second goal", "third goal", "opening goal",
         "opens the scoring", "open the scoring"],
    pat ["brilliant finish", "lovely finish", "clinical finish", "tucks it away"],
    pat ["breaks the deadlock", "break the deadlock", "doubles the lead",
         "seals the victory", "seal the victory"],
    pat ["smashed in the rebound", ("and it") ++ apos ++ ("s in")],
    pat ["one null", "two null", "three null", "four null", "five null"],
    pat ["one one", "two one", "three one", "two two", "three two"],
    pat ["1-0", "2-0", "3-0", "4-0", "1-1", "2-1", "3-1", "2-2", "3-2"] ]

/-- Alternatives of the `foul` regexes (src/information_extraction.py:42-45). -/
def foulPatterns : List (List (List Char)) :=
  [ pat ["foul", "fouls", "fouled", "tackle", "tackled", "brought down", "pulled back"],
    pat ["trips", "trip", "tripped", "push", "pushed", "shoved"] ]

/-- Alternatives of the `yellow_card` regexes (src/information_extraction.py:46-49). -/
def yellowCardPatterns : List (List (List Char)) :=
  [ pat ["yellow card", "booked", "booking", "caution", "cautioned"],
    pat ["shown yellow", "gets a yellow", "get a yellow",
         "receives a yellow", "receive a yellow"] ]

/-- Alternatives of the `red_card` regexes (src/information_extraction.py:50-53). -/
def redCardPatterns : List (List (List Char)) :=
  [ pat ["red card", "sent off", "sending off", "dismissed", "ejected"],
    pat ["straight red", "second yellow", "off he goes"] ]

/-- Alternatives of the `offside` regex (src/information_extraction.py:54-56). -/
def offsidePatterns : List (List (List Char)) :=
  [ pat ["offside", "off-side", "flag is up",
         ("linesman") ++ apos ++ ("s flag"), "linesmans flag"] ]

/-- Alternatives of the `substitution` regexes (src/information_extraction.py:57-60). -/
def substitutionPatterns : List (List (List Char)) :=
  [ pat ["substitution", "sub", "replaced", "replacing", "goes off", "goe off"],
    pat ["brings on", "bring on", "takes off", "take off"] ]

/-- Alternatives of the `injury` regexes (src/information_extraction.py:61-64). -/
def injuryPatterns : List (List (List Char)) :=
  [ pat ["injury", "hurt", "treatment", "stretcher", "medical"],
    pat ["holding", "injured", "limping", "medic"] ]

/-- Does any regex of a category match the (already lowercased) text? -/
def catMatch (pats : List (List (List Char))) (tl : List Char) : Bool :=
  pats.any fun alts => searchWB alts tl

/-- `EVENT_PATTERNS` (src/information_extraction.py:30-65), in the dict's
insertion order — the priority order of the matcher. -/
def EVENT_PATTERNS : List (String × List (List (List Char))) :=
  [ (("goal"), goalPatterns), (("foul"), foulPatterns),
    (("yellow_card"), yellowCardPatterns), (("red_card"), redCardPatterns),
    (("offside"), offsidePatterns), (("substitution"), substitutionPatterns),
    (("injury"), injuryPatterns) ]

/-- The per-segment matching loop of `detect_events_with_timestamps`
(src/information_extraction.py:140-152): first matching category wins
(`break`), at most one event per segment. -/
def segmentEvent (seg : Segment) : Option Event :=
  match EVENT_PATTERNS.find? (fun e => catMatch e.2 (lcase seg.text.data)) with
  | some e => some { type := e.1, text := seg.text.trim, time := seg.start }
  | none => none

/-- The raw candidate events, one pass over the segments. -/
def rawEvents (segments : List Segment) : List Event :=
  segments.filterMap segmentEvent

def GOAL_TIME_WINDOW : ℚ := 15
def EVENT_TIME_WINDOW : ℚ := 10

/-- The suppression window of an event type (src/information_extraction.py:156). -/
def eventWindow (ty : String) : ℚ :=
  if ty == ("goal") then GOAL_TIME_WINDOW else EVENT_TIME_WINDOW

/-- Does the accepted event `a` suppress the candidate `e`?
(src/information_extraction.py:158-161). -/
def conflictB (e a : Event) : Bool :=
  a.type == e.type && decide (|a.time - e.time| < eventWindow e.type)

/-- One step of the deduplication loop: keep the candidate iff no
already-accepted event of the same type is within its window. -/
def dedupStep (acc : List Event) (e : Event) : List Event :=
  if acc.any (conflictB e) then acc else acc ++ [e]

/-- The deduplication pass (src/information_extraction.py:154-162). -/
def deduplicate (events : List Event) : List Event :=
  events.foldl dedupStep []

/-- `detect_events_with_timestamps` (src/information_extraction.py:137-164). -/
def detect_events_with_timestamps (segments : List Segment) : List Event :=
  deduplicate (rawEvents segments)

/-! ### Volume peak detection (src/audio_volume.py) -/

/-- One point of the volume timeline, supplied by the audio analysis
(`get_volume_timeline` reads the wav file; the samples are the external
input here). -/
structure TimelinePoint where
  time : ℚ
  volume : ℚ
deriving DecidableEq, Repr

/-- An accepted volume peak. -/
structure VolumePeak where
  time : ℚ
  volume : ℚ
  type : String
deriving DecidableEq, Repr

/-- The scan of `detect_volume_peaks` (src/audio_volume.py:112-125),
threaded on `last_peak_time`. -/
def detectPeaksFrom (threshold min_gap : ℚ) : ℚ → List TimelinePoint → List VolumePeak
  | _, [] => []
  | last_peak_time, p :: rest =>
    if threshold ≤ p.volume ∧ min_gap ≤ p.time - last_peak_time then
      { time := p.time, volume := p.volume, type := ("high_volume_moment") } ::
        detectPeaksFrom threshold min_gap p.time rest
    else detectPeaksFrom threshold min_gap last_peak_time rest

/-- `detect_volume_peaks` (src/audio_volume.py:108-125) over a given
timeline, with `last_peak_time` initialized to `-min_gap_seconds`. -/
def detect_volume_peaks (threshold min_gap : ℚ) (timeline : List TimelinePoint) :
    List VolumePeak :=
  detectPeaksFrom threshold min_gap (-min_gap) timeline

/-! ### Helper lemmas -/

lemma spacy_scores_nonneg (nlp : Option Model) (text : String) :
    0 ≤ (analyze_with_spacy nlp text).excitement_score ∧
    0 ≤ (analyze_with_spacy nlp text).tension_score := by
  cases nlp with
  | none => simp [analyze_with_spacy]
  | some m =>
    simp only [analyze_with_spacy]
    constructor <;> exact le_min (by positivity) zero_le_one

lemma calculate_intensity_nonneg (nlp : Option Model) (text : String) :
    0 ≤ calculate_intensity nlp text := by
  obtain ⟨he, ht⟩ := spacy_scores_nonneg nlp text
  have hmin1 : (0:ℚ) ≤ min ((text.data.count '!' : ℚ) * (8/100)) (25/100) :=
    le_min (by positivity) (by norm_num)
  have hmin2 : (0:ℚ) ≤ min ((text.data.count '?' : ℚ) * (5/100)) (1/10) :=
    le_min (by positivity) (by norm_num)
  have hhi : (0:ℚ) ≤ (countTrue (highPatternHits text) : ℚ) * (2/10) := by positivity
  have hmed : (0:ℚ) ≤ (countTrue (mediumPatternHits text) : ℚ) * (8/100) := by positivity
  simp only [calculate_intensity]
  refine le_min ?_ zero_le_one
  split_ifs <;> linarith

lemma calculate_intensity_le_one (nlp : Option Model) (text : String) :
    calculate_intensity nlp text ≤ 1 := by
  simp only [calculate_intensity]
  exact min_le_right _ _

lemma pyRound_nonneg {n : Nat} {x : ℚ} (h0 : 0 ≤ x) : 0 ≤ pyRound n x := by
  unfold pyRound
  have hP : (0:ℚ) < ((10 ^ n : ℕ) : ℚ) := by positivity
  apply div_nonneg _ hP.le
  have h2 : (0:ℚ) ≤ x * ((10 ^ n : ℕ) : ℚ) := by positivity
  have h3 := sub_half_lt_round (x * ((10 ^ n : ℕ) : ℚ))
  have h4 : (-1 : ℚ) < ((round (x * ((10 ^ n : ℕ) : ℚ)) : ℤ) : ℚ) := by linarith
  have h5 : (-1 : ℤ) < round (x * ((10 ^ n : ℕ) : ℚ)) := by exact_mod_cast h4
  have h6 : (0 : ℤ) ≤ round (x * ((10 ^ n : ℕ) : ℚ)) := by omega
  exact_mod_cast h6

lemma pyRound_zero (n : Nat) : pyRound n 0 = 0 := by
  simp [pyRound]

lemma pyRound_le_one {n : Nat} {x : ℚ} (h1 : x ≤ 1) : pyRound n x ≤ 1 := by
  unfold pyRound
  have hP : (0:ℚ) < ((10 ^ n : ℕ) : ℚ) := by positivity
  rw [div_le_one hP]
  have h3 := round_le_add_half (x * ((10 ^ n : ℕ) : ℚ))
  have hxP : x * ((10 ^ n : ℕ) : ℚ) ≤ ((10 ^ n : ℕ) : ℚ) := by nlinarith
  have h4 : ((round (x * ((10 ^ n : ℕ) : ℚ)) : ℤ) : ℚ) < ((10 ^ n : ℕ) : ℚ) + 1 := by linarith
  have h5 : round (x * ((10 ^ n : ℕ) : ℚ)) < ((10 ^ n : ℕ) : ℤ) + 1 := by exact_mod_cast h4
  have h6 : round (x * ((10 ^ n : ℕ) : ℚ)) ≤ ((10 ^ n : ℕ) : ℤ) := by omega
  exact_mod_cast h6

/-! ### Claim theorems -/

/-- C3: for every segment text and every `volume_score` in `[0,1]`, both the
text-only intensity `calculate_intensity` and the fused
`calculate_intensity_with_volume` lie in `[0,1]`, no matter how many
additive bonus terms fire. -/
theorem intensity_unit_interval (nlp : Option Model) (text : String) (v : ℚ)
    (h0 : 0 ≤ v) (h1 : v ≤ 1) :
    (0 ≤ calculate_intensity nlp text ∧ calculate_intensity nlp text ≤ 1) ∧
    (0 ≤ calculate_intensity_with_volume nlp text v ∧
      calculate_intensity_with_volume nlp text v ≤ 1) := by
  have hn := calculate_intensity_nonneg nlp text
  have hu := calculate_intensity_le_one nlp text
  refine ⟨⟨hn, hu⟩, ?_, ?_⟩
  · simp only [calculate_intensity_with_volume]
    apply pyRound_nonneg
    split_ifs with hb
    · exact le_min (by linarith) (by norm_num)
    · linarith
  · simp only [calculate_intensity_with_volume]
    apply pyRound_le_one
    split_ifs with hb
    · exact min_le_right _ _
    · linarith

/-- Witness for C3 at `text = ""`, `volume_score = 1/2`. -/
theorem intensity_unit_interval_witness :
    (0 ≤ calculate_intensity none ("") ∧ calculate_intensity none ("") ≤ 1) ∧
    (0 ≤ calculate_intensity_with_volume none ("") (1/2) ∧
      calculate_intensity_with_volume none ("") (1/2) ≤ 1) :=
  intensity_unit_interval none ("") (1/2) (by norm_num) (by norm_num)

/-- C9: the intensity summary of an empty record list returns the defined
defaults (`average_intensity = 0`, `peak_intensity = 0`,
`total_segments = 0`, `exciting_percentage = 0`, and no peak moment)
without failing. -/
theorem summary_empty_defaults :
    get_intensity_summary [] =
      { average_intensity := 0, peak_intensity := 0, peak_moment_time := 0,
        mood_distribution := ⟨0, 0, 0⟩, sentiment_distribution := ⟨0, 0, 0, 0, 0⟩,
        total_segments := 0, exciting_percentage := 0 } ∧
    peakRecord [] = none := by
  constructor
  · simp [get_intensity_summary, peakRecord, pyRound_zero]
  · rfl

/-- C1 (status: code_bug): with the NLP collaborator unavailable
(`nlp = None`), `analyze_sentiment` on any nonempty segment list produces
no records at all.  The `nlp = None` fallback dict of `analyze_with_spacy`
(src/sentiment_analyzer.py:58) has no `word_count` key, yet building
`linguistic_features` (src/sentiment_analyzer.py:225) reads
`spacy_analysis["word_count"]`, so the Python code raises `KeyError`
instead of degrading to all-zero linguistic signals. -/
theorem analyze_sentiment_fails_without_nlp (seg : Segment) (rest : List Segment)
    (svw : List VolSeg) : analyze_sentiment none (seg :: rest) svw = none := rfl

/-- The fully-lowercase text used against C2. -/
def lowercaseSample : String := "goal"

/-- C2 (status: code_bug): the high-intensity patterns are searched with
`re.IGNORECASE` (src/sentiment_analyzer.py:123), so on the fully-lowercase
text `"goal"` the `[A-Z]{3,}` pattern and the `\b(GOAL|YES|WOW|OH)\b`
pattern both match and contribute `+0.4`, although the code's own comments
call them "Caps lock words" and "Shouted words": the total intensity is
`2/5`, not `0` as the claim requires for lowercase text. -/
theorem caps_and_shout_fire_on_lowercase :
    (∀ c ∈ lowercaseSample.data, c.isUpper = false) ∧
    hasRun3Alpha lowercaseSample.data = true ∧
    searchWB shoutAlts (lcase lowercaseSample.data) = true ∧
    calculate_intensity none lowercaseSample = 2/5 := by
  refine ⟨by decide, by decide, by decide, ?_⟩
  have hh : countTrue (highPatternHits lowercaseSample) = 2 := by decide
  have hm : countTrue (mediumPatternHits lowercaseSample) = 0 := by decide
  have hex : lowercaseSample.data.count '!' = 0 := by decide
  have hq : lowercaseSample.data.count '?' = 0 := by decide
  have ha : List.countP (fun c => c.isAlpha) lowercaseSample.data = 4 := by decide
  have hc : List.countP (fun c => c.isUpper) lowercaseSample.data = 0 := by decide
  simp only [calculate_intensity, analyze_with_spacy, hh, hm, hex, hq, ha, hc]
  norm_num [min_def]

/-- C5: the deduplicator processes candidates in original order and accepts
a candidate exactly when no already-accepted event of the same type lies
within `|candidate.time − accepted.time| < window` (15 s for `goal`, 10 s
otherwise); in particular goal candidates at times 100, 108, 200
deduplicate to the events at 100 and 200. -/
theorem dedup_accept_iff :
    (deduplicate
        [{ type := ("goal"), text := ("g"), time := 100 },
         { type := ("goal"), text := ("g"), time := 108 },
         { type := ("goal"), text := ("g"), time := 200 }] =
      [{ type := ("goal"), text := ("g"), time := 100 },
       { type := ("goal"), text := ("g"), time := 200 }]) ∧
    (∀ (acc : List Event) (e : Event),
      dedupStep acc e =
        if ∃ a ∈ acc, a.type = e.type ∧ |a.time - e.time| < eventWindow e.type
        then acc else acc ++ [e]) := by
  constructor
  · norm_num [deduplicate, dedupStep, conflictB, eventWindow,
      GOAL_TIME_WINDOW, EVENT_TIME_WINDOW, abs_sub_lt_iff]
  · intro acc e
    have h : (acc.any (conflictB e) = true) ↔
        ∃ a ∈ acc, a.type = e.type ∧ |a.time - e.time| < eventWindow e.type := by
      simp [List.any_eq_true, conflictB, and_assoc]
    simp only [dedupStep]
    exact if_congr h rfl rfl

/-- Candidate suffixes that a deduplication pass started from the accepted
list `acc` keeps in full: each element passes the window check against
`acc` extended with all elements before it. -/
inductive Keeps : List Event → List Event → Prop
  | nil (acc : List Event) : Keeps acc []
  | cons {acc : List Event} {e : Event} {d : List Event}
      (he : acc.any (conflictB e) = false) (hd : Keeps (acc ++ [e]) d) :
      Keeps acc (e :: d)

lemma foldl_dedupStep_of_keeps {acc d : List Event} (h : Keeps acc d) :
    d.foldl dedupStep acc = acc ++ d := by
  induction h with
  | nil acc => simp
  | cons he hd ih =>
    rename_i acc e d
    have hstep : dedupStep acc e = acc ++ [e] := by simp [dedupStep, he]
    simp only [List.foldl_cons, hstep, ih]
    simp

lemma foldl_dedupStep_keeps : ∀ (l acc : List Event),
    ∃ d, l.foldl dedupStep acc = acc ++ d ∧ Keeps acc d := by
  intro l
  induction l with
  | nil => exact fun acc => ⟨[], by simp, Keeps.nil acc⟩
  | cons e rest ih =>
    intro acc
    by_cases hb : acc.any (conflictB e) = true
    · obtain ⟨d, hd, hk⟩ := ih acc
      have hstep : dedupStep acc e = acc := by simp [dedupStep, hb]
      refine ⟨d, ?_, hk⟩
      simpa [List.foldl_cons, hstep] using hd
    · have hb' : acc.any (conflictB e) = false := by simpa using hb
      have hstep : dedupStep acc e = acc ++ [e] := by simp [dedupStep, hb']
      obtain ⟨d, hd, hk⟩ := ih (acc ++ [e])
      refine ⟨e :: d, ?_, Keeps.cons hb' hk⟩
      simp only [List.foldl_cons, hstep, hd]
      simp

/-- C6: the deduplicator is idempotent — running the deduplication pass on
its own output yields that output unchanged. -/
theorem dedup_idempotent (events : List Event) :
    deduplicate (deduplicate events) = deduplicate events := by
  obtain ⟨d, hd, hk⟩ := foldl_dedupStep_keeps events []
  have h2 : d.foldl dedupStep [] = [] ++ d := foldl_dedupStep_of_keeps hk
  simp only [List.nil_append] at hd h2
  rw [deduplicate, deduplicate, hd, h2]

lemma detectPeaksFrom_spec (threshold min_gap : ℚ) (h : 0 ≤ min_gap) :
    ∀ (tl : List TimelinePoint) (last : ℚ),
      (∀ p ∈ detectPeaksFrom threshold min_gap last tl,
        threshold ≤ p.volume ∧ last + min_gap ≤ p.time) ∧
      (detectPeaksFrom threshold min_gap last tl).Pairwise
        (fun a b => min_gap ≤ b.time - a.time) := by
  intro tl
  induction tl with
  | nil => intro last; constructor <;> simp [detectPeaksFrom]
  | cons p rest ih =>
    intro last
    by_cases hc : threshold ≤ p.volume ∧ min_gap ≤ p.time - last
    · obtain ⟨h1, h2⟩ := ih p.time
      constructor
      · intro q hq
        simp only [detectPeaksFrom, if_pos hc, List.mem_cons] at hq
        rcases hq with rfl | hq
        · exact ⟨hc.1, by linarith [hc.2]⟩
        · have hq2 := h1 q hq
          exact ⟨hq2.1, by linarith [hc.2, hq2.2]⟩
      · simp only [detectPeaksFrom, if_pos hc]
        refine List.Pairwise.cons ?_ h2
        intro q hq
        have hq2 := (h1 q hq).2
        simpa using by linarith [hq2]
    · obtain ⟨h1, h2⟩ := ih last
      constructor
      · intro q hq
        simp only [detectPeaksFrom, if_neg hc] at hq
        exact h1 q hq
      · simp only [detectPeaksFrom, if_neg hc]
        exact h2

/-- C7: every accepted volume peak has volume at or above the threshold,
and any two accepted peaks are at least `min_gap_seconds` apart, under the
greedy scan initialized with `last_peak_time = -min_gap_seconds`. -/
theorem volume_peaks_threshold_and_gap (threshold min_gap : ℚ) (h : 0 ≤ min_gap)
    (timeline : List TimelinePoint) :
    (∀ p ∈ detect_volume_peaks threshold min_gap timeline, threshold ≤ p.volume) ∧
    (detect_volume_peaks threshold min_gap timeline).Pairwise
      (fun a b => min_gap ≤ b.time - a.time) := by
  obtain ⟨h1, h2⟩ := detectPeaksFrom_spec threshold min_gap h timeline (-min_gap)
  exact ⟨fun p hp => (h1 p hp).1, h2⟩

/-- Witness for C7 on the spec's scenario: samples `0.7`@5 s, `0.8`@8 s,
`0.65`@20 s with threshold `0.6` and `min_gap = 10`. -/
theorem volume_peaks_threshold_and_gap_witness :
    (∀ p ∈ detect_volume_peaks (6/10) 10 [⟨5, 7/10⟩, ⟨8, 8/10⟩, ⟨20, 65/100⟩],
      (6/10 : ℚ) ≤ p.volume) ∧
    (detect_volume_peaks (6/10) 10 [⟨5, 7/10⟩, ⟨8, 8/10⟩, ⟨20, 65/100⟩]).Pairwise
      (fun a b => (10 : ℚ) ≤ b.time - a.time) :=
  volume_peaks_threshold_and_gap (6/10) 10 (by norm_num) _

lemma volLookup_le_one {svw : List VolSeg} (hv : ∀ s ∈ svw, s.volume_score ≤ 1)
    (key : ℚ) : volLookup svw key ≤ 1 := by
  unfold volLookup
  cases hf : svw.reverse.find? (fun s => decide (pyRound 1 s.start = key)) with
  | none => norm_num
  | some s => exact hv s (List.mem_reverse.mp (List.mem_of_find?_eq_some hf))

/-- C8: when the volume lookup keyed by the segment start rounded to one
decimal yields a positive score, the stored intensity is the two-decimal
rounding of `clamp(text·0.6 + volume·0.4 (+0.1 bonus when both > 0.5), 1)`;
otherwise (no entry, or a score of exactly 0) it is the text-only
intensity. -/
theorem fused_intensity_formula (nlp : Option Model) (svw : List VolSeg) (seg : Segment)
    (hv : ∀ s ∈ svw, s.volume_score ≤ 1) :
    segIntensityVal nlp svw seg =
      if 0 < segVolumeScore svw seg then
        pyRound 2 (min (calculate_intensity nlp seg.text * (6/10) +
            segVolumeScore svw seg * (4/10) +
            (if 1/2 < calculate_intensity nlp seg.text ∧ 1/2 < segVolumeScore svw seg
              then 1/10 else 0)) 1)
      else calculate_intensity nlp seg.text := by
  by_cases hpos : 0 < segVolumeScore svw seg
  · simp only [segIntensityVal]
    rw [if_pos hpos, if_pos hpos]
    simp only [calculate_intensity_with_volume]
    by_cases hb : 1/2 < calculate_intensity nlp seg.text ∧ 1/2 < segVolumeScore svw seg
    · rw [if_pos hb, if_pos hb]
    · rw [if_neg hb, if_neg hb, add_zero]
      have hti1 : calculate_intensity nlp seg.text ≤ 1 :=
        calculate_intensity_le_one nlp seg.text
      have htin : 0 ≤ calculate_intensity nlp seg.text :=
        calculate_intensity_nonneg nlp seg.text
      have hv1 : segVolumeScore svw seg ≤ 1 := volLookup_le_one hv _
      have hc : calculate_intensity nlp seg.text * (6/10) +
          segVolumeScore svw seg * (4/10) ≤ 1 := by linarith
      rw [min_eq_left hc]
  · simp only [segIntensityVal]
    rw [if_neg hpos, if_neg hpos]

/-- The concrete volume list used by the C8 witness. -/
def wSvw : List VolSeg := [{ start := 0, volume_score := 7/10 }]

/-- The concrete segment used by the C8 witness. -/
def wSeg : Segment := { start := 0, text := "goal" }

/-- Witness for C8 at a segment whose start time has a positive volume
match. -/
theorem fused_intensity_formula_witness :
    (∀ s ∈ wSvw, s.volume_score ≤ 1) ∧
    segIntensityVal none wSvw wSeg =
      (if 0 < segVolumeScore wSvw wSeg then
        pyRound 2 (min (calculate_intensity none wSeg.text * (6/10) +
            segVolumeScore wSvw wSeg * (4/10) +
            (if 1/2 < calculate_intensity none wSeg.text ∧ 1/2 < segVolumeScore wSvw wSeg
              then 1/10 else 0)) 1)
      else calculate_intensity none wSeg.text) :=
  ⟨by norm_num [wSvw], fused_intensity_formula none wSvw wSeg (by norm_num [wSvw])⟩

lemma pyRound_idem (n : Nat) (x : ℚ) : pyRound n (pyRound n x) = pyRound n x := by
  unfold pyRound
  have hP : ((10 ^ n : ℕ) : ℚ) ≠ 0 := by positivity
  rw [div_mul_cancel₀ _ hP, round_intCast]

/-- A tokenizer standing in for the spaCy model in C10: it returns seven
plain words, one of which is the excitement lemma `goal`. -/
def sevenWordModel : Model := fun _ =>
  List.replicate 6 { lemma_ := ("the"), pos := ("DET"), is_punct := false, is_space := false } ++
  [{ lemma_ := ("goal"), pos := ("NOUN"), is_punct := false, is_space := false }]

/-- C10: the fused (audio-matched) intensity is always an exact
two-decimal value, while the text-only path stores the raw unrounded
value of `calculate_intensity` — exhibited by a seven-word segment whose
intensity is `6/35`, which is not a two-decimal number. -/
theorem rounding_only_on_audio_path :
    (∀ (nlp : Option Model) (text : String) (v : ℚ),
      pyRound 2 (calculate_intensity_with_volume nlp text v) =
        calculate_intensity_with_volume nlp text v) ∧
    segIntensityVal (some sevenWordModel) [] { start := 0, text := ("") } =
      calculate_intensity (some sevenWordModel) ("") ∧
    calculate_intensity (some sevenWordModel) ("") = 6/35 ∧
    pyRound 2 ((6:ℚ)/35) ≠ (6:ℚ)/35 := by
  refine ⟨?_, ?_, ?_, ?_⟩
  · intro nlp text v
    simp only [calculate_intensity_with_volume]
    exact pyRound_idem 2 _
  · simp [segIntensityVal, segVolumeScore, volLookup]
  · have he : List.countP (fun t => EXCITEMENT_LEMMAS.contains (lowerS t.lemma_))
        (sevenWordModel ("")) = 1 := by decide
    have ht : List.countP (fun t => TENSION_LEMMAS.contains (lowerS t.lemma_))
        (sevenWordModel ("")) = 0 := by decide
    have hi : List.countP (fun t => INTENSIFIERS.contains (lowerS t.lemma_))
        (sevenWordModel ("")) = 0 := by decide
    have hng : List.any (sevenWordModel ("")) (fun t => NEGATIONS.contains (lowerS t.lemma_))
        = false := by decide
    have hadj : List.filter (fun t => t.pos == ("ADJ") || t.pos == ("ADV"))
        (sevenWordModel ("")) = [] := by decide
    have hwc : (List.filter (fun t => !t.is_punct && !t.is_space)
        (sevenWordModel (""))).length = 7 := by decide
    have hh : countTrue (highPatternHits ("")) = 0 := by decide
    have hm : countTrue (mediumPatternHits ("")) = 0 := by decide
    simp only [calculate_intensity, analyze_with_spacy, he, ht, hi, hng, hadj, hwc, hh, hm]
    norm_num [min_def]
  · norm_num [pyRound, round_eq, Int.floor_eq_iff]

/-- The claim's (and spec §4.1's) description of the matcher result: the
first category in the fixed priority order `goal, foul, yellow_card,
red_card, offside, substitution, injury` whose rule set matches the
lowercased text. -/
def eventTypeSpec (tl : List Char) : Option String :=
  if catMatch goalPatterns tl then some ("goal")
  else if catMatch foulPatterns tl then some ("foul")
  else if catMatch yellowCardPatterns tl then some ("yellow_card")
  else if catMatch redCardPatterns tl then some ("red_card")
  else if catMatch offsidePatterns tl then some ("offside")
  else if catMatch substitutionPatterns tl then some ("substitution")
  else if catMatch injuryPatterns tl then some ("injury")
  else none

/-- C4: per segment the matcher emits at most one event, whose type is the
first category in the fixed priority order with a matching pattern; in
particular whenever a goal pattern matches — even if later categories also
match — the segment is classified as `goal`. -/
theorem event_matcher_priority (seg : Segment) :
    (rawEvents [seg]).length ≤ 1 ∧
    segmentEvent seg = (eventTypeSpec (lcase seg.text.data)).map
      (fun ty => { type := ty, text := seg.text.trim, time := seg.start }) ∧
    (catMatch goalPatterns (lcase seg.text.data) = true →
      segmentEvent seg =
        some { type := ("goal"), text := seg.text.trim, time := seg.start }) := by
  have hmain : segmentEvent seg = (eventTypeSpec (lcase seg.text.data)).map
      (fun ty => { type := ty, text := seg.text.trim, time := seg.start }) := by
    simp only [segmentEvent, EVENT_PATTERNS, eventTypeSpec]
    by_cases h1 : catMatch goalPatterns (lcase seg.text.data)
    · rw [List.find?_cons_of_pos _ (by simpa using h1)]
      simp [h1]
    · rw [List.find?_cons_of_neg _ (by simpa using h1), if_neg (by simpa using h1)]
      by_cases h2 : catMatch foulPatterns (lcase seg.text.data)
      · rw [List.find?_cons_of_pos _ (by simpa using h2)]
        simp [h2]
      · rw [List.find?_cons_of_neg _ (by simpa using h2), if_neg (by simpa using h2)]
        by_cases h3 : catMatch yellowCardPatterns (lcase seg.text.data)
        · rw [List.find?_cons_of_pos _ (by simpa using h3)]
          simp [h3]
        · rw [List.find?_cons_of_neg _ (by simpa using h3), if_neg (by simpa using h3)]
          by_cases h4 : catMatch redCardPatterns (lcase seg.text.data)
          · rw [List.find?_cons_of_pos _ (by simpa using h4)]
            simp [h4]
          · rw [List.find?_cons_of_neg _ (by simpa using h4), if_neg (by simpa using h4)]
            by_cases h5 : catMatch offsidePatterns (lcase seg.text.data)
            · rw [List.find?_cons_of_pos _ (by simpa using h5)]
              simp [h5]
            · rw [List.find?_cons_of_neg _ (by simpa using h5), if_neg (by simpa using h5)]
              by_cases h6 : catMatch substitutionPatterns (lcase seg.text.data)
              · rw [List.find?_cons_of_pos _ (by simpa using h6)]
                simp [h6]
              · rw [List.find?_cons_of_neg _ (by simpa using h6), if_neg (by simpa using h6)]
                by_cases h7 : catMatch injuryPatterns (lcase seg.text.data)
                · rw [List.find?_cons_of_pos _ (by simpa using h7)]
                  simp [h7]
                · rw [List.find?_cons_of_neg _ (by simpa using h7), if_neg (by simpa using h7)]
                  simp
  have hlen : (rawEvents [seg]).length ≤ 1 := by
    cases h : segmentEvent seg <;> simp [rawEvents, h]
  refine ⟨hlen, hmain, fun hg => ?_⟩
  rw [hmain]
  simp [eventTypeSpec, hg]

/-- The concrete segment used by the C4 witness: its text matches both a
goal pattern (`into the net`) and a foul pattern (`brought down`). -/
def wGoalFoulSeg : Segment :=
  { start := 30, text := "He was brought down, but it went into the net!" }

/-- Witness for C4: a text matching both a goal pattern and the
later-priority foul pattern is classified as `goal`. -/
theorem event_matcher_priority_witness :
    catMatch goalPatterns (lcase wGoalFoulSeg.text.data) = true ∧
    catMatch foulPatterns (lcase wGoalFoulSeg.text.data) = true ∧
    segmentEvent wGoalFoulSeg =
      some { type := ("goal"), text := wGoalFoulSeg.text.trim, time := wGoalFoulSeg.start } :=
  ⟨by decide, by decide, (event_matcher_priority wGoalFoulSeg).2.2 (by decide)⟩

end FootballNLP
